import Mathlib

/-!
Verification of the blog's presentation-widget layer: the Dragdealer drag
engine (vendored Dragdealer.js 0.9.8), the Navi button abstraction, the
HorizontalSlideNavi mobile strip, the DesktopPaginationNavi rotating window,
and the responsive Pagination controller.

The embedding is shallow: JavaScript numbers are modelled as rationals (ℚ),
element references as booleans or `Option`, and a thrown TypeError as a
`none` result.  DOM side effects that carry no state the widgets later read
(CSS classes, tram animations, pixel widths written to list items) are not
tracked.  Where a JavaScript expression would produce `undefined`/NaN (an
empty step table consulted by `getClosestStep`), the model returns a list
default and every theorem stays away from that region by hypothesis.
-/

/-- JavaScript `Math.round`: round half toward positive infinity,
`Math.round(x) = ⌊x + 1/2⌋`. -/
def jsRound (q : ℚ) : ℤ :=
  Rat.floor (q + 1/2)

/-- Options of a Dragdealer instance (`Dragdealer.prototype.defaults` plus the
positional/padding options read by `init`/`calculateBounds`).  The DOM-only
options (`handleClass`, `css3`, `activeClass`, `tapping`) are not modelled. -/
structure Dragdealer.Options where
  disabled : Bool := false
  slide : Bool := true
  steps : ℕ := 0
  snap : Bool := false
  loose : Bool := false
  speed : ℚ := 1/10
  xPrecision : ℚ := 0
  yPrecision : ℚ := 0
  x : ℚ := 0
  y : ℚ := 0
  top : ℚ := 0
  bottom : ℚ := 0
  left : ℚ := 0
  right : ℚ := 0
  deriving DecidableEq

/-- The wrapper/handle geometry a Dragdealer reads from the DOM. -/
structure Dragdealer.Geometry where
  wrapperOffsetWidth : ℚ := 0
  wrapperOffsetHeight : ℚ := 0
  handleOffsetWidth : ℚ := 0
  handleOffsetHeight : ℚ := 0
  wrapperPos : ℚ × ℚ := (0, 0)
  deriving DecidableEq

/-- `this.bounds` as computed by `calculateBounds`. -/
structure Dragdealer.Bounds where
  top : ℚ
  left : ℚ
  availWidth : ℚ
  availHeight : ℚ
  deriving DecidableEq

/-- `this.value`: the `[x, y]` ratio triple. -/
structure Dragdealer.Value where
  prev : ℚ × ℚ
  current : ℚ × ℚ
  target : ℚ × ℚ
  deriving DecidableEq

/-- The mutable state of an initialized Dragdealer (the fields `init` sets,
minus the DOM-event bookkeeping flag `activity`). -/
structure Dragdealer.State where
  options : Dragdealer.Options
  bounds : Dragdealer.Bounds
  value : Dragdealer.Value
  stepRatios : List ℚ
  offsetWrapper : ℚ × ℚ
  offsetMouse : ℚ × ℚ
  offsetPrev : ℚ × ℚ
  offsetCurrent : ℚ × ℚ
  offsetTarget : ℚ × ℚ
  dragStartPosition : ℚ × ℚ
  change : ℚ × ℚ
  valuePrecision : ℚ × ℚ
  dragging : Bool
  tapping : Bool
  disabled : Bool
  deriving DecidableEq

/-- `calculateStepRatios`: for `steps >= 1`, entry `i` is `i / (steps - 1)`
(`0` for a single step); empty otherwise. -/
def Dragdealer.calculateStepRatios (steps : ℕ) : List ℚ :=
  if steps ≥ 1 then
    (List.range steps).map (fun (i : ℕ) => if steps > 1 then (i : ℚ) / ((steps : ℚ) - 1) else 0)
  else
    []

/-- The index loop of `getClosestStep`: scan entries in order, keeping the
index of the smallest `|stepRatios[i] - value|` seen so far (strict `<`, so
ties keep the earlier index); accumulator starts at `(k, min) = (0, 1)`. -/
def Dragdealer.closestLoop (v : ℚ) : List ℚ → ℕ → ℕ × ℚ → ℕ × ℚ
  | [], _, acc => acc
  | r :: rest, i, acc =>
      Dragdealer.closestLoop v rest (i + 1)
        (if |r - v| < acc.2 then (i, |r - v|) else acc)

/-- `getClosestStep`: returns `stepRatios[k]` for the winning index `k`.
(On an empty table the source would yield JavaScript `undefined`; the model
returns the list default 0, a region no theorem relies on.) -/
def Dragdealer.getClosestStep (table : List ℚ) (v : ℚ) : ℚ :=
  table.getD (Dragdealer.closestLoop v table 0 (0, 1)).1 0

/-- `getClosestSteps`: componentwise closest step. -/
def Dragdealer.getClosestSteps (table : List ℚ) (g : ℚ × ℚ) : ℚ × ℚ :=
  (Dragdealer.getClosestStep table g.1, Dragdealer.getClosestStep table g.2)

/-- `groupCompare`. -/
def Dragdealer.groupCompare (a b : ℚ × ℚ) : Bool :=
  a.1 == b.1 && a.2 == b.2

/-- `getProperValue`: clamp each component to `[0, 1]` (`Math.max` with 0,
then `Math.min` with 1), then snap to the step table when
`((!dragging && !tapping) || snap) && steps > 1`. -/
def Dragdealer.getProperValue (s : Dragdealer.State) (v : ℚ × ℚ) : ℚ × ℚ :=
  let p : ℚ × ℚ := (min (max v.1 0) 1, min (max v.2 0) 1)
  if (¬s.dragging ∧ ¬s.tapping) ∨ s.options.snap then
    if s.options.steps > 1 then Dragdealer.getClosestSteps s.stepRatios p else p
  else p

/-- `getLooseValue`: proper value plus a quarter of the overshoot. -/
def Dragdealer.getLooseValue (s : Dragdealer.State) (v : ℚ × ℚ) : ℚ × ℚ :=
  let p := Dragdealer.getProperValue s v
  (p.1 + (v.1 - p.1) / 4, p.2 + (v.2 - p.2) / 4)

/-- `getOffsetByRatio`: `Math.round(ratio * range) + padding`. -/
def Dragdealer.getOffsetByRatio (r range padding : ℚ) : ℚ :=
  (jsRound (r * range) : ℚ) + padding

/-- `getOffsetsByRatios`: x against `(availWidth, left)`, y against
`(availHeight, top)`. -/
def Dragdealer.getOffsetsByRatios (s : Dragdealer.State) (g : ℚ × ℚ) : ℚ × ℚ :=
  (Dragdealer.getOffsetByRatio g.1 s.bounds.availWidth s.bounds.left,
   Dragdealer.getOffsetByRatio g.2 s.bounds.availHeight s.bounds.top)

/-- `getRatioByOffset`: `range ? (offset - padding) / range : 0` — a zero
(falsy) range yields 0 instead of dividing. -/
def Dragdealer.getRatioByOffset (offset range padding : ℚ) : ℚ :=
  if range ≠ 0 then (offset - padding) / range else 0

/-- `getRatiosByOffsets`. -/
def Dragdealer.getRatiosByOffsets (s : Dragdealer.State) (g : ℚ × ℚ) : ℚ × ℚ :=
  (Dragdealer.getRatioByOffset g.1 s.bounds.availWidth s.bounds.left,
   Dragdealer.getRatioByOffset g.2 s.bounds.availHeight s.bounds.top)

/-- `setTargetValue`: loose or proper value into `value.target` and
`offset.target` (the target callback it then fires carries no state). -/
def Dragdealer.setTargetValue (s : Dragdealer.State) (v : ℚ × ℚ) (loose : Bool) :
    Dragdealer.State :=
  let target := if loose then Dragdealer.getLooseValue s v else Dragdealer.getProperValue s v
  { s with value := { s.value with target := target },
           offsetTarget := Dragdealer.getOffsetsByRatios s target }

/-- `updateOffsetFromValue`: recompute `offset.current` from `value.current`
(stepped first when the `snap` option is set); when it moved, render the
handle there and remember it in `offset.prev`. -/
def Dragdealer.updateOffsetFromValue (s : Dragdealer.State) : Dragdealer.State :=
  let oc := if ¬s.options.snap then Dragdealer.getOffsetsByRatios s s.value.current
            else Dragdealer.getOffsetsByRatios s
              (Dragdealer.getClosestSteps s.stepRatios s.value.current)
  if ¬(Dragdealer.groupCompare oc s.offsetPrev) then
    { s with offsetCurrent := oc, offsetPrev := oc }
  else
    { s with offsetCurrent := oc }

/-- `callAnimationCallback`: the announced value (stepped when
`snap && steps > 1`) is remembered in `value.prev` when it changed; the
callback invocation itself carries no state. -/
def Dragdealer.callAnimationCallback (s : Dragdealer.State) : Dragdealer.State :=
  let v := if s.options.snap ∧ s.options.steps > 1 then
             Dragdealer.getClosestSteps s.stepRatios s.value.current
           else s.value.current
  if ¬(Dragdealer.groupCompare v s.value.prev) then
    { s with value := { s.value with prev := v } }
  else s

/-- `getValue`: the target ratio pair. -/
def Dragdealer.getValue (s : Dragdealer.State) : ℚ × ℚ :=
  s.value.target

/-- `setValue(x, y, snap)`: set the target from `[x, y || 0]`; with `snap`,
jump `value.current` to the target, update offsets and fire the animation
callback at once. -/
def Dragdealer.setValue (s : Dragdealer.State) (x y : ℚ) (snap : Bool) :
    Dragdealer.State :=
  let s1 := Dragdealer.setTargetValue s (x, y) false
  if snap then
    let s2 := { s1 with value := { s1.value with current := s1.value.target } }
    Dragdealer.callAnimationCallback (Dragdealer.updateOffsetFromValue s2)
  else s1

/-- `startDrag`: record the cursor start and the handle grab offset (needs
the live cursor, wrapper and handle positions; the `.active` CSS class and
the drag-start callback carry no state). -/
def Dragdealer.startDrag (s : Dragdealer.State) (cursor wrapperPos handlePos : ℚ × ℚ) :
    Dragdealer.State :=
  if s.disabled then s
  else
    { s with dragging := true,
             offsetWrapper := wrapperPos,
             dragStartPosition := cursor,
             offsetMouse := (cursor.1 - handlePos.1, cursor.2 - handlePos.2) }

/-- `stopDrag`: when a drag is live, stop it, extrapolate the target by four
times the last frame's `change` when the `slide` option is set, and pass it
to `setTargetValue` (with no loose flag).  The second component is the
`[deltaX, deltaY]` handed to `dragStopCallback` (`none` when the guard
returned early): each axis divides the cursor travel by the avail range
unless that range is exactly 0, in which case the delta is defined as 0. -/
def Dragdealer.stopDrag (s : Dragdealer.State) (cursor : ℚ × ℚ) :
    Dragdealer.State × Option (ℚ × ℚ) :=
  if s.disabled ∨ ¬s.dragging then (s, none)
  else
    let s1 := { s with dragging := false }
    let deltaX := if s1.bounds.availWidth = 0 then 0
                  else (cursor.1 - s1.dragStartPosition.1) / s1.bounds.availWidth
    let deltaY := if s1.bounds.availHeight = 0 then 0
                  else (cursor.2 - s1.dragStartPosition.2) / s1.bounds.availHeight
    let target0 := s1.value.current
    let target := if s1.options.slide then
                    (target0.1 + s1.change.1 * 4, target0.2 + s1.change.2 * 4)
                  else target0
    (Dragdealer.setTargetValue s1 target false, some (deltaX, deltaY))

/-- `calculateBounds` from the padding options and the DOM geometry. -/
def Dragdealer.calculateBounds (opts : Dragdealer.Options) (geo : Dragdealer.Geometry) :
    Dragdealer.Bounds :=
  let top := opts.top
  let bottom := -opts.bottom + geo.wrapperOffsetHeight
  let left := opts.left
  let right := -opts.right + geo.wrapperOffsetWidth
  { top := top, left := left,
    availWidth := (right - left) - geo.handleOffsetWidth,
    availHeight := (bottom - top) - geo.handleOffsetHeight }

/-- `calculateValuePrecision`: `xPrecision || |availWidth|`, inverted unless
zero (likewise for y). -/
def Dragdealer.calculateValuePrecision (s : Dragdealer.State) : ℚ × ℚ :=
  let xPrec := if s.options.xPrecision ≠ 0 then s.options.xPrecision else |s.bounds.availWidth|
  let yPrec := if s.options.yPrecision ≠ 0 then s.options.yPrecision else |s.bounds.availHeight|
  (if xPrec ≠ 0 then 1 / xPrec else 0, if yPrec ≠ 0 then 1 / yPrec else 0)

/-- `reflow`: wrapper offset, bounds, value precision, then re-render. -/
def Dragdealer.reflow (s : Dragdealer.State) (geo : Dragdealer.Geometry) :
    Dragdealer.State :=
  let s1 := { s with offsetWrapper := geo.wrapperPos }
  let s2 := { s1 with bounds := Dragdealer.calculateBounds s1.options geo }
  let s3 := { s2 with valuePrecision := Dragdealer.calculateValuePrecision s2 }
  Dragdealer.updateOffsetFromValue s3

/-- `init`: the state the constructor builds when both elements were found
(value/offset groups, step table, `reflow`, then the `disabled` option). -/
def Dragdealer.init (opts : Dragdealer.Options) (geo : Dragdealer.Geometry) :
    Dragdealer.State :=
  let s : Dragdealer.State := {
    options := opts,
    bounds := { top := 0, left := 0, availWidth := 0, availHeight := 0 },
    value := { prev := (-1, -1), current := (opts.x, opts.y), target := (opts.x, opts.y) },
    stepRatios := Dragdealer.calculateStepRatios opts.steps,
    offsetWrapper := (0, 0),
    offsetMouse := (0, 0),
    offsetPrev := (-999999, -999999),
    offsetCurrent := (0, 0),
    offsetTarget := (0, 0),
    dragStartPosition := (0, 0),
    change := (0, 0),
    valuePrecision := (0, 0),
    dragging := false,
    tapping := false,
    disabled := false }
  let s1 := Dragdealer.reflow s geo
  if opts.disabled then { s1 with disabled := true } else s1

/-- Whether the two required DOM elements were found at construction. -/
structure Dragdealer.CtorEnv where
  wrapperFound : Bool
  handleFound : Bool
  deriving DecidableEq

/-- A constructed Dragdealer.  `state = none` models the constructor's early
`return` when `getWrapperElement`/`getHandleElement` found nothing: `init`
and `bindEventListeners` never run and `this.value`, `this.bounds`,
`this.handle` stay `undefined`. -/
structure Dragdealer.Instance where
  state : Option Dragdealer.State
  listenersBound : Bool
  deriving DecidableEq

/-- The `Dragdealer` constructor. -/
def Dragdealer.construct (env : Dragdealer.CtorEnv) (opts : Dragdealer.Options)
    (geo : Dragdealer.Geometry) : Dragdealer.Instance :=
  if env.wrapperFound then
    if env.handleFound then
      { state := some (Dragdealer.init opts geo), listenersBound := true }
    else
      { state := none, listenersBound := false }
  else
    { state := none, listenersBound := false }

/-- `getValue` on an instance: `this.value.target` throws a TypeError
(`none`) when `init` never ran and `this.value` is `undefined`. -/
def Dragdealer.Instance.getValueI (d : Dragdealer.Instance) : Option (ℚ × ℚ) :=
  d.state.map Dragdealer.getValue

/-- `setValue` on an instance: `setTargetValue` reaches
`this.value.target` and throws (`none`) on an uninitialized instance. -/
def Dragdealer.Instance.setValueI (d : Dragdealer.Instance) (x y : ℚ) (snap : Bool) :
    Option Dragdealer.Instance :=
  d.state.map (fun s => { d with state := some (Dragdealer.setValue s x y snap) })

/-- `reflow` on an instance: `Position.get(this.wrapper)` /
`this.handle.offsetWidth` throw (`none`) on an uninitialized instance. -/
def Dragdealer.Instance.reflowI (d : Dragdealer.Instance) (geo : Dragdealer.Geometry) :
    Option Dragdealer.Instance :=
  d.state.map (fun s => { d with state := some (Dragdealer.reflow s geo) })

/-- `enable` on an instance: `this.handle.className` throws (`none`) on an
uninitialized instance. -/
def Dragdealer.Instance.enableI (d : Dragdealer.Instance) : Option Dragdealer.Instance :=
  d.state.map (fun s => { d with state := some { s with disabled := false } })

/-- `disable` on an instance: `this.handle.className` throws (`none`) on an
uninitialized instance. -/
def Dragdealer.Instance.disableI (d : Dragdealer.Instance) : Option Dragdealer.Instance :=
  d.state.map (fun s => { d with state := some { s with disabled := true } })

/-- `startDrag` on an instance: the `this.disabled` guard is falsy
(`undefined`) on an uninitialized instance, so the body runs and
`Position.get` throws (`none`). -/
def Dragdealer.Instance.startDragI (d : Dragdealer.Instance)
    (cursor wrapperPos handlePos : ℚ × ℚ) : Option Dragdealer.Instance :=
  d.state.map (fun s => { d with state := some (Dragdealer.startDrag s cursor wrapperPos handlePos) })

/-- `stopDrag` on an instance: on an uninitialized instance the
`!this.dragging` guard is true (`undefined` is falsy), so it returns early
without throwing — the one genuinely inert entry point. -/
def Dragdealer.Instance.stopDragI (d : Dragdealer.Instance) (cursor : ℚ × ℚ) :
    Dragdealer.Instance × Option (ℚ × ℚ) :=
  match d.state with
  | none => (d, none)
  | some s =>
      let r := Dragdealer.stopDrag s cursor
      ({ d with state := some r.1 }, r.2)

/-- The activate/click event payload an observer receives:
`{prevIndex, index}`. -/
structure Navi.Event where
  prevIndex : ℤ
  index : ℤ
  deriving DecidableEq

/-- The state of a `Navi` instance.  The jQuery button collection is
modelled by its length; each nullable callback reference by a `Bool`
(held or already cleared). -/
structure Navi.State where
  btns : ℕ
  mouseoverCallback : Bool
  mouseoutCallback : Bool
  mousedownCallback : Bool
  mouseupCallback : Bool
  clickCallback : Bool
  activateCallback : Bool
  currentIndex : ℤ
  activateIndex : ℤ
  listenersBound : Bool
  deriving DecidableEq

/-- `Navi.init`: `setBtnsEventHandler(true)` after building the proxies. -/
def Navi.init (s : Navi.State) : Navi.State :=
  { s with listenersBound := true }

/-- `Navi.activate(index)`: an index outside `1..btns.length` becomes the
sentinel 0; the activate callback (when held) fires with
`{prevIndex: activateIndex, index: idx}` and only then is
`activateIndex` assigned — so the event's `prevIndex` is read from the
pre-call state.  Returns the new state and the fired event, if any. -/
def Navi.activate (s : Navi.State) (index : ℤ) : Navi.State × Option Navi.Event :=
  let idx := if index ≤ 0 ∨ index > (s.btns : ℤ) then 0 else index
  let fired := if s.activateCallback then some { prevIndex := s.activateIndex, index := idx }
               else none
  ({ s with activateIndex := idx }, fired)

/-- `Navi.destroy`: unbind, clear the button list, null the mouseover,
mouseout, click and activate callbacks (the source leaves `mousedownCallback`
and `mouseupCallback` untouched) and reset both indices. -/
def Navi.destroy (s : Navi.State) : Navi.State :=
  { s with listenersBound := false,
           btns := 0,
           mouseoverCallback := false,
           mouseoutCallback := false,
           clickCallback := false,
           activateCallback := false,
           currentIndex := 0,
           activateIndex := 0 }

/-- The `HorizontalSlideNavi` layer over `Navi` (inheritance flattened into
a field).  The Drag Engine's own state lives in the engine; at this layer
only the reference (`dragDealer`) is tracked. -/
structure HSNavi.State where
  navi : Navi.State
  isDraggable : Bool
  dragDealer : Option Unit
  resizeBound : Bool
  proxyResize : Bool
  deriving DecidableEq

/-- What `HorizontalSlideNavi.resize` reads from the DOM: whether the
handle's rendered width exceeds the wrapper's width. -/
structure PageEnv where
  numButtons : ℕ
  desktopWrapPresent : Bool
  slideOverflow : Bool
  deriving DecidableEq

/-- `HorizontalSlideNavi.resize`: nothing without an engine; otherwise
enable dragging on overflow, else disable and force ratio 0 (the engine
calls are engine-state, tracked only through `isDraggable` here). -/
def HSNavi.resize (env : PageEnv) (s : HSNavi.State) : HSNavi.State :=
  if s.dragDealer = none then s
  else { s with isDraggable := env.slideOverflow }

/-- A fresh `HorizontalSlideNavi` with the given buttons and the two
callbacks `Pagination.setSlideNavi` supplies. -/
def HSNavi.construct (btns : ℕ) : HSNavi.State :=
  { navi := { btns := btns,
              mouseoverCallback := false, mouseoutCallback := false,
              mousedownCallback := false, mouseupCallback := false,
              clickCallback := true, activateCallback := true,
              currentIndex := 0, activateIndex := 0, listenersBound := false },
    isDraggable := false, dragDealer := none, resizeBound := false, proxyResize := false }

/-- `HorizontalSlideNavi.init`: `super.init`, resize proxy, `setInstance`
(builds the Dragdealer), resize listener, then one `resize()`. -/
def HSNavi.init (env : PageEnv) (s : HSNavi.State) : HSNavi.State :=
  let s1 := { s with navi := Navi.init s.navi, proxyResize := true }
  let s2 := { s1 with dragDealer := some () }
  let s3 := { s2 with resizeBound := true }
  HSNavi.resize env s3

/-- Inherited `activate` (event discarded by the pagination callers). -/
def HSNavi.activate (s : HSNavi.State) (index : ℤ) : HSNavi.State :=
  { s with navi := (Navi.activate s.navi index).1 }

/-- `HorizontalSlideNavi.destroy`: resize listener off, proxy nulled,
dragging off, engine unbound and nulled (guarded by `if (_.dragDealer)`),
then `super.destroy()`.  Never throws, also on a second call. -/
def HSNavi.destroy (s : HSNavi.State) : HSNavi.State :=
  { navi := Navi.destroy s.navi,
    isDraggable := false,
    dragDealer := none,
    resizeBound := false,
    proxyResize := false }

/-- `DesktopPaginationNavi`'s `_.DISPLAY_BTN_NUM`. -/
def displayBtnNum : ℕ := 4

/-- Modelled from the spec: helper `getLoopedLastIndex` is called by
`DesktopPaginationNavi.setInstance`/`switchBtns` but its definition is not
among the repository sources.  Spec §4.4: the window's right edge is
`(left + displayCount - 1) mod N`, 1-based, wrapping to 1 rather than 0. -/
def getLoopedLastIndex (total : ℤ) (display : ℕ) (first : ℤ) : ℤ :=
  let r := (first + (display : ℤ) - 1) % total
  if r = 0 then 1 else r

/-- Modelled from the spec: the `display`-sized forward window of button
indices starting at `first`, wrapping from N to 1 — the same wrap step the
in-source loop of `setNaviListItemsPosition` uses
(`index++; if (length < index) index = 1`). -/
def loopWindow (total : ℤ) : ℕ → ℤ → List ℤ
  | 0, _ => []
  | d + 1, first => first :: loopWindow total d (if total < first + 1 then 1 else first + 1)

/-- Modelled from the spec: helper `isIndexInLoop` is called by
`DesktopPaginationNavi.switchBtns` but its definition is not among the
repository sources.  It decides whether `idx` is one of the `display`
indices currently visible in the window starting at `first`. -/
def isIndexInLoop (total : ℤ) (display : ℕ) (first idx : ℤ) : Bool :=
  (loopWindow total display first).contains idx

/-- One backward wrap step: from 1 back to N, otherwise minus one. -/
def backStep (total i : ℤ) : ℤ :=
  if i - 1 < 1 then total else i - 1

/-- Modelled from the spec: helper `getReverseLoopedFirstIndex` is called by
`DesktopPaginationNavi.switchBtns` but its definition is not among the
repository sources.  It is the left edge of the window whose right edge is
`last`: `display - 1` backward wrap steps. -/
def getReverseLoopedFirstIndex (total : ℤ) (display : ℕ) (last : ℤ) : ℤ :=
  (backStep total)^[display - 1] last

/-- The prev/next direction string of a `CLICK_PREVNEXT_BTN` event. -/
inductive Direction where
  | prev
  | next
  deriving DecidableEq

/-- The state of a `DesktopPaginationNavi`.  `prevBtn`/`nextBtn` are `true`
while the instance holds the jQuery objects and `false` once `destroy` has
nulled them. -/
structure DesktopNavi.State where
  navi : Option Navi.State
  naviListItems : ℕ
  edgeLeft : ℤ
  edgeRight : ℤ
  prevBtn : Bool
  nextBtn : Bool
  resizeBound : Bool
  firstIndex : ℤ
  deriving DecidableEq

/-- The `DesktopPaginationNavi` constructor (before `init`). -/
def DesktopNavi.construct (firstIndex : ℤ) : DesktopNavi.State :=
  { navi := none, naviListItems := 0, edgeLeft := 0, edgeRight := 0,
    prevBtn := false, nextBtn := false, resizeBound := false, firstIndex := firstIndex }

/-- `DesktopPaginationNavi.setInstance` (= `init`): nothing when the wrap
is absent; otherwise count the list items, seed the edge indices when more
buttons than the display window, build and init the inner `Navi` with the
click/activate callbacks, grab the prev/next buttons, and bind resize. -/
def DesktopNavi.setInstance (env : PageEnv) (s : DesktopNavi.State) : DesktopNavi.State :=
  if ¬env.desktopWrapPresent then s
  else
    let s1 := { s with naviListItems := env.numButtons }
    let s2 := if s1.naviListItems > displayBtnNum then
        { s1 with edgeLeft := s1.firstIndex,
                  edgeRight := getLoopedLastIndex (s1.naviListItems : ℤ) displayBtnNum s1.firstIndex }
      else s1
    { s2 with
        navi := some (Navi.init
          { btns := env.numButtons,
            mouseoverCallback := false, mouseoutCallback := false,
            mousedownCallback := false, mouseupCallback := false,
            clickCallback := true, activateCallback := true,
            currentIndex := 0, activateIndex := 0, listenersBound := false }),
        prevBtn := true,
        nextBtn := true,
        resizeBound := true }

/-- `DesktopPaginationNavi.activate`: forwarded to the inner `Navi` when it
exists. -/
def DesktopNavi.activate (s : DesktopNavi.State) (index : ℤ) : DesktopNavi.State :=
  match s.navi with
  | some n => { s with navi := some (Navi.activate n index).1 }
  | none => s

/-- `DesktopPaginationNavi.getActivatedIndex`: inner value or 0. -/
def DesktopNavi.getActivatedIndex (s : DesktopNavi.State) : ℤ :=
  match s.navi with
  | some n => n.activateIndex
  | none => 0

/-- `DesktopPaginationNavi.destroy`: resize listener off, inner `Navi`
destroyed (guarded), list items cleared — then `_.prevBtn.off(...)` and
`_.nextBtn.off(...)` with no null guard.  On a repeat call both are already
`null` and the member access throws a TypeError, modelled as `none`. -/
def DesktopNavi.destroy (s : DesktopNavi.State) : Option DesktopNavi.State :=
  let s1 := { s with resizeBound := false, navi := none, naviListItems := 0 }
  if s1.prevBtn then
    if s1.nextBtn then some { s1 with prevBtn := false, nextBtn := false }
    else none
  else none

/-- `DesktopPaginationNavi.switchBtns(direction, index)`: nothing when the
buttons all fit the window, when no direction is given, or when `index` is
already visible in the current window; otherwise a `prev` shift makes
`index` the right edge (left recomputed backward) and a `next` shift makes
`index` the left edge (right recomputed forward).  The tram slide animation
and the width bookkeeping carry no state read back later. -/
def DesktopNavi.switchBtns (s : DesktopNavi.State) (direction : Option Direction)
    (index : ℤ) : DesktopNavi.State :=
  if s.naviListItems ≤ displayBtnNum then s
  else
    match direction with
    | none => s
    | some dir =>
        if isIndexInLoop (s.naviListItems : ℤ) displayBtnNum s.edgeLeft index then s
        else
          match dir with
          | Direction.prev =>
              { s with edgeLeft := getReverseLoopedFirstIndex (s.naviListItems : ℤ) displayBtnNum index,
                       edgeRight := index }
          | Direction.next =>
              { s with edgeLeft := index,
                       edgeRight := getLoopedLastIndex (s.naviListItems : ℤ) displayBtnNum index }

/-- The breakpoint table (`BREAKPOINTS`). -/
def breakpointTablet : ℤ := 640

/-- The breakpoint table (`BREAKPOINTS`). -/
def breakpointPc : ℤ := 960

/-- The breakpoint table (`BREAKPOINTS`). -/
def breakpointMax : ℤ := 1340

/-- A `CLICK_PAGE_BTN` notification as triggered on the controller. -/
structure PageEvent where
  eventType : String
  index : ℤ
  deriving DecidableEq

/-- `Pagination.CLICK_PAGE_BTN`. -/
def clickPageBtn : String := "CLICK_PAGE_BTN"

/-- The state of the `Pagination` controller: the logical index plus at most
one owned navigator of each kind. -/
structure Pagination.State where
  currentIndex : ℤ
  slideNavi : Option HSNavi.State
  desktopNavi : Option DesktopNavi.State
  deriving DecidableEq

/-- `Pagination.setSlideNavi`: build and init the mobile strip (two-item
collections also get `slideNavi.disable()`, an engine-only effect). -/
def Pagination.setSlideNavi (env : PageEnv) (s : Pagination.State) : Pagination.State :=
  { s with slideNavi := some (HSNavi.init env (HSNavi.construct env.numButtons)) }

/-- `Pagination.setDesktopNavi`: build the desktop navigator with
`firstIndex: _.currentIndex` and init it (the `CLICK_PREVNEXT_BTN`
subscription carries no state). -/
def Pagination.setDesktopNavi (env : PageEnv) (s : Pagination.State) : Pagination.State :=
  let d := DesktopNavi.setInstance env (DesktopNavi.construct s.currentIndex)
  { s with desktopNavi := some d }

/-- The desktop arm of `Pagination.resize` (the `>= max` and `>= pc`
branches are textually identical): destroy and drop the slide navigator,
construct the desktop navigator when absent, then activate it at
`currentIndex`. -/
def Pagination.resizeDesktopArm (env : PageEnv) (s : Pagination.State) : Pagination.State :=
  let s1 := { s with slideNavi := none }
  let s2 := if s1.desktopNavi.isNone then Pagination.setDesktopNavi env s1 else s1
  match s2.desktopNavi with
  | some d => { s2 with desktopNavi := some (DesktopNavi.activate d s2.currentIndex) }
  | none => s2

/-- The mobile arm of `Pagination.resize` after the desktop navigator is
gone: construct the slide navigator when absent, `activate(currentIndex)`,
`setSlidePositionByIndex(currentIndex)` (which activates again; its engine
positioning is engine-state), then enable (tablet arm, above two items) or
disable dragging. -/
def Pagination.resizeMobileRest (env : PageEnv) (s : Pagination.State) (enabled : Bool) :
    Pagination.State :=
  let s1 := if s.slideNavi.isNone then Pagination.setSlideNavi env s else s
  match s1.slideNavi with
  | some sn =>
      let sn1 := HSNavi.activate sn s1.currentIndex
      let sn2 := HSNavi.activate sn1 s1.currentIndex
      let sn3 := if enabled ∧ env.numButtons > 2 then { sn2 with isDraggable := true } else sn2
      { s1 with slideNavi := some sn3 }
  | none => s1

/-- `Pagination.resize`, dispatching on `window.innerWidth` against the
breakpoint table.  `none` models the TypeError that escapes when a mobile
arm calls `destroy()` on a desktop navigator whose prev/next buttons are
already nulled. -/
def Pagination.resize (env : PageEnv) (s : Pagination.State) (width : ℤ) :
    Option Pagination.State :=
  if width ≥ breakpointMax then some (Pagination.resizeDesktopArm env s)
  else if width ≥ breakpointPc then some (Pagination.resizeDesktopArm env s)
  else
    let enabled := width ≥ breakpointTablet
    match s.desktopNavi with
    | some d =>
        match DesktopNavi.destroy d with
        | none => none
        | some _ => some (Pagination.resizeMobileRest env { s with desktopNavi := none } enabled)
    | none => some (Pagination.resizeMobileRest env s enabled)

/-- The `.btn-prev-mobile` click handler bound in `Pagination.setInstance`:
triggers `CLICK_PAGE_BTN` with `currentIndex - 1`, floored to the sentinel
0 at the left end (`idx <= 1`), with no modulo wrap. -/
def Pagination.mobilePrevClick (s : Pagination.State) : PageEvent :=
  { eventType := clickPageBtn,
    index := if s.currentIndex ≤ 1 then 0 else s.currentIndex - 1 }

/-- The `.btn-next-mobile` click handler bound in `Pagination.setInstance`:
triggers `CLICK_PAGE_BTN` with `currentIndex + 1` unless `currentIndex`
already exceeds `slideNavi.getBtns().length` (then 0); it reads the slide
navigator, so it throws (`none`) when that is `null`. -/
def Pagination.mobileNextClick (s : Pagination.State) : Option PageEvent :=
  s.slideNavi.map (fun sn =>
    { eventType := clickPageBtn,
      index := if s.currentIndex > (sn.navi.btns : ℤ) then 0 else s.currentIndex + 1 })

/-- The spec's description of the value that `setValue(x, y, snap=true)`
must install and render: `(x, y)` clamped to `[0, 1]` componentwise and,
when more than one step is configured, snapped to the step table (claim C1;
spec §8).  Stated from the spec's words, for comparison with the source
pipeline. -/
def specClampStep (steps : ℕ) (x y : ℚ) : ℚ × ℚ :=
  let c : ℚ × ℚ := (min (max x 0) 1, min (max y 0) 1)
  if 1 < steps then Dragdealer.getClosestSteps (Dragdealer.calculateStepRatios steps) c
  else c

/-- A live Dragdealer used to instantiate C1: three steps, option `snap`
set, wrapper 200×10 with handle 40×10 and left padding 10 / top padding 5
(so `availWidth = 150`, `availHeight = 0`). -/
def c1w : Dragdealer.State :=
  { options := { steps := 3, snap := true },
    bounds := { top := 5, left := 10, availWidth := 150, availHeight := 0 },
    value := { prev := (-1, -1), current := (0, 0), target := (0, 0) },
    stepRatios := Dragdealer.calculateStepRatios 3,
    offsetWrapper := (0, 0), offsetMouse := (0, 0),
    offsetPrev := (-999999, -999999), offsetCurrent := (10, 5), offsetTarget := (10, 5),
    dragStartPosition := (0, 0), change := (0, 0), valuePrecision := (1/150, 0),
    dragging := false, tapping := false, disabled := false }

/-- A Dragdealer in mid-drag with both `slide` and `loose` set, used to
instantiate C2: current ratio `(9/10, 0)`, last frame's change `(1/10, 0)`. -/
def c2s : Dragdealer.State :=
  { options := { slide := true, loose := true },
    bounds := { top := 0, left := 0, availWidth := 100, availHeight := 0 },
    value := { prev := (-1, -1), current := (9/10, 0), target := (9/10, 0) },
    stepRatios := [],
    offsetWrapper := (0, 0), offsetMouse := (0, 0),
    offsetPrev := (-999999, -999999), offsetCurrent := (90, 0), offsetTarget := (90, 0),
    dragStartPosition := (0, 0), change := (1/10, 0), valuePrecision := (1/100, 0),
    dragging := true, tapping := false, disabled := false }

/-- A second mid-drag Dragdealer (slide on, loose off) used to witness the
amended C2: current `(1/2, 0)`, change `(1/4, 0)`. -/
def c2w : Dragdealer.State :=
  { options := { slide := true },
    bounds := { top := 0, left := 0, availWidth := 100, availHeight := 50 },
    value := { prev := (-1, -1), current := (1/2, 0), target := (1/2, 0) },
    stepRatios := [],
    offsetWrapper := (0, 0), offsetMouse := (0, 0),
    offsetPrev := (-999999, -999999), offsetCurrent := (50, 0), offsetTarget := (50, 0),
    dragStartPosition := (3, 4), change := (1/4, 0), valuePrecision := (1/100, 1/50),
    dragging := true, tapping := false, disabled := false }

/-- A mid-drag Dragdealer whose horizontal avail range collapsed to zero,
used to instantiate C8. -/
def c8w : Dragdealer.State :=
  { options := {},
    bounds := { top := 0, left := 0, availWidth := 0, availHeight := 0 },
    value := { prev := (-1, -1), current := (0, 0), target := (0, 0) },
    stepRatios := [],
    offsetWrapper := (0, 0), offsetMouse := (0, 0),
    offsetPrev := (-999999, -999999), offsetCurrent := (0, 0), offsetTarget := (0, 0),
    dragStartPosition := (2, 9), change := (0, 0), valuePrecision := (0, 0),
    dragging := true, tapping := false, disabled := false }

/-- A five-button `Navi` with an activate callback and button 2 active,
used to instantiate C7. -/
def c7w : Navi.State :=
  { btns := 5,
    mouseoverCallback := false, mouseoutCallback := false,
    mousedownCallback := false, mouseupCallback := false,
    clickCallback := true, activateCallback := true,
    currentIndex := 2, activateIndex := 2, listenersBound := true }

/-- A pagination environment with ten buttons and the desktop wrap present. -/
def env10 : PageEnv :=
  { numButtons := 10, desktopWrapPresent := true, slideOverflow := true }

/-- An initialized ten-button `DesktopPaginationNavi`, used for C5. -/
def d5 : DesktopNavi.State :=
  DesktopNavi.setInstance env10 (DesktopNavi.construct 1)

/-- `d5` after one `destroy()`: inner navi gone, list cleared, listeners
off, both prev/next button references nulled. -/
def d5After : DesktopNavi.State :=
  { navi := none, naviListItems := 0, edgeLeft := 1, edgeRight := 4,
    prevBtn := false, nextBtn := false, resizeBound := false, firstIndex := 1 }

/-- The inner `Navi` of the C3 desktop navigator: ten buttons, button 1
active. -/
def c3nav : Navi.State :=
  { btns := 10,
    mouseoverCallback := false, mouseoutCallback := false,
    mousedownCallback := false, mouseupCallback := false,
    clickCallback := true, activateCallback := true,
    currentIndex := 1, activateIndex := 1, listenersBound := true }

/-- A ten-button desktop navigator showing window `{left: 1, right: 4}`,
used for the C3 counterexample. -/
def c3s : DesktopNavi.State :=
  { navi := some c3nav, naviListItems := 10, edgeLeft := 1, edgeRight := 4,
    prevBtn := true, nextBtn := true, resizeBound := true, firstIndex := 1 }

/-- A ten-button desktop navigator showing window `{left: 1, right: 4}`,
used to witness the amended C3 (a `next` shift to the off-window index 5). -/
def c3w : DesktopNavi.State :=
  { navi := some c3nav, naviListItems := 10, edgeLeft := 1, edgeRight := 4,
    prevBtn := true, nextBtn := true, resizeBound := true, firstIndex := 1 }

/-- A ten-button mobile slide navigator, used for C4/C10. -/
def hs10 : HSNavi.State :=
  HSNavi.init env10 (HSNavi.construct 10)

/-- A pagination controller in mobile mode at logical index 3, used to
witness C4. -/
def p4 : Pagination.State :=
  { currentIndex := 3, slideNavi := some hs10, desktopNavi := none }

/-- A pagination controller in mobile mode at the last logical index (10 of
10), used to instantiate C10. -/
def p10 : Pagination.State :=
  { currentIndex := 10, slideNavi := some hs10, desktopNavi := none }

theorem closestLoop_nonneg (v : ℚ) (l : List ℚ) (i : ℕ) (acc : ℕ × ℚ)
    (h : 0 ≤ acc.2) : 0 ≤ (Dragdealer.closestLoop v l i acc).2 := by
  induction l generalizing i acc with
  | nil => exact h
  | cons r rest ih =>
      simp only [Dragdealer.closestLoop]
      rcases le_or_lt acc.2 |r - v| with hle | hlt
      · rw [if_neg (not_lt.mpr hle)]
        exact ih _ _ h
      · rw [if_pos hlt]
        exact ih _ _ (abs_nonneg _)

theorem closestLoop_stable (v : ℚ) (l : List ℚ) (i : ℕ) (acc : ℕ × ℚ)
    (h : acc.2 ≤ 0) : Dragdealer.closestLoop v l i acc = acc := by
  induction l generalizing i with
  | nil => rfl
  | cons r rest ih =>
      simp only [Dragdealer.closestLoop]
      rw [if_neg (not_lt.mpr (h.trans (abs_nonneg _)))]
      exact ih _

theorem closestLoop_mem_zero (table : List ℚ) (v : ℚ) (l : List ℚ) (i : ℕ)
    (acc : ℕ × ℚ)
    (hl : ∀ j (h : j < l.length), table.getD (i + j) 0 = l.get ⟨j, h⟩)
    (hnn : 0 ≤ acc.2)
    (hacc : acc.2 = 0 → table.getD acc.1 0 = v)
    (hv : v ∈ l) :
    table.getD (Dragdealer.closestLoop v l i acc).1 0 = v := by
  induction l generalizing i acc with
  | nil => cases hv
  | cons r rest ih =>
      simp only [Dragdealer.closestLoop]
      rcases eq_or_ne r v with hr | hr
      · rcases lt_or_le 0 acc.2 with hpos | hnp
        · rw [if_pos (by simpa [hr] using hpos)]
          rw [closestLoop_stable _ _ _ _ (by simp [hr])]
          have h0 := hl 0 (by simp)
          simpa [hr] using h0
        · have hz : acc.2 = 0 := le_antisymm hnp hnn
          rw [if_neg (by rw [hz]; exact not_lt.mpr (abs_nonneg _))]
          rw [closestLoop_stable _ _ _ _ (le_of_eq hz)]
          exact hacc hz
      · have hv' : v ∈ rest := by
          rcases List.mem_cons.mp hv with h | h
          · exact absurd h.symm hr
          · exact h
        refine ih _ _ ?_ ?_ ?_ hv'
        · intro j hj
          have h1 := hl (j + 1) (by simpa using Nat.succ_lt_succ hj)
          have h2 : i + (j + 1) = (i + 1) + j := by omega
          rw [h2] at h1
          simpa using h1
        · rcases le_or_lt acc.2 |r - v| with hle | hlt
          · rw [if_neg (not_lt.mpr hle)]; exact hnn
          · rw [if_pos hlt]; exact abs_nonneg _
        · rcases le_or_lt acc.2 |r - v| with hle | hlt
          · rw [if_neg (not_lt.mpr hle)]; exact hacc
          · rw [if_pos hlt]
            intro h0
            exact absurd (sub_eq_zero.mp (abs_eq_zero.mp h0)) hr
      
theorem closestLoop_idx_lt (v : ℚ) (l : List ℚ) (i : ℕ) (acc : ℕ × ℚ) (n : ℕ)
    (hacc : acc.1 < n) (hlen : i + l.length ≤ n) :
    (Dragdealer.closestLoop v l i acc).1 < n := by
  induction l generalizing i acc with
  | nil => exact hacc
  | cons r rest ih =>
      simp only [Dragdealer.closestLoop]
      simp only [List.length_cons] at hlen
      refine ih _ _ ?_ (by omega)
      rcases le_or_lt acc.2 |r - v| with hle | hlt
      · rw [if_neg (not_lt.mpr hle)]; exact hacc
      · rw [if_pos hlt]; omega

theorem getClosestStep_self (table : List ℚ) (v : ℚ) (hv : v ∈ table) :
    Dragdealer.getClosestStep table v = v := by
  unfold Dragdealer.getClosestStep
  refine closestLoop_mem_zero table v table 0 (0, 1) ?_ (by norm_num)
    (fun h => absurd h one_ne_zero) hv
  intro j hj
  rw [Nat.zero_add, List.getD_eq_getElem _ _ hj, List.get_eq_getElem]

theorem getClosestStep_mem (table : List ℚ) (v : ℚ) (h : table ≠ []) :
    Dragdealer.getClosestStep table v ∈ table := by
  unfold Dragdealer.getClosestStep
  have hlt : (Dragdealer.closestLoop v table 0 (0, 1)).1 < table.length :=
    closestLoop_idx_lt v table 0 (0, 1) table.length
      (List.length_pos.mpr h) (by simp)
  rw [List.getD_eq_getElem _ _ hlt]
  exact List.getElem_mem hlt

theorem getClosestStep_idem (table : List ℚ) (v : ℚ) (h : table ≠ []) :
    Dragdealer.getClosestStep table (Dragdealer.getClosestStep table v) =
      Dragdealer.getClosestStep table v :=
  getClosestStep_self _ _ (getClosestStep_mem _ _ h)

theorem calculateStepRatios_eq_map (N : ℕ) (hN : 1 < N) :
    Dragdealer.calculateStepRatios N =
      (List.range N).map (fun (i : ℕ) => (i : ℚ) / ((N : ℚ) - 1)) := by
  unfold Dragdealer.calculateStepRatios
  rw [if_pos (Nat.one_le_of_lt hN)]
  exact List.map_congr_left (fun i _ => if_pos hN)

/-- C9: for every configured step count `N > 1` the step table has exactly
`N` entries, its first entry is 0, its last entry is 1, it is sorted
ascending, and entry `i` equals `i / (N - 1)`. -/
theorem calculateStepRatios_spec (N : ℕ) (hN : 1 < N) :
    (Dragdealer.calculateStepRatios N).length = N ∧
    (Dragdealer.calculateStepRatios N).getD 0 0 = 0 ∧
    (Dragdealer.calculateStepRatios N).getD (N - 1) 0 = 1 ∧
    (Dragdealer.calculateStepRatios N).Sorted (· ≤ ·) ∧
    ∀ i, i < N → (Dragdealer.calculateStepRatios N).getD i 0 = (i : ℚ) / ((N : ℚ) - 1) := by
  have hrw := calculateStepRatios_eq_map N hN
  have hlen : (Dragdealer.calculateStepRatios N).length = N := by
    rw [hrw]; simp
  have hget : ∀ i, i < N →
      (Dragdealer.calculateStepRatios N).getD i 0 = (i : ℚ) / ((N : ℚ) - 1) := by
    intro i hi
    rw [hrw]
    have hi' : i < ((List.range N).map (fun (i : ℕ) => (i : ℚ) / ((N : ℚ) - 1))).length := by
      simpa using hi
    rw [List.getD_eq_getElem _ _ hi']
    simp
  have hden : (0 : ℚ) < (N : ℚ) - 1 := by
    have : (1 : ℚ) < (N : ℚ) := by exact_mod_cast hN
    linarith
  refine ⟨hlen, ?_, ?_, ?_, hget⟩
  · rw [hget 0 (by omega)]
    simp
  · rw [hget (N - 1) (by omega)]
    have hc : ((N - 1 : ℕ) : ℚ) = (N : ℚ) - 1 := by
      have : (1 : ℕ) ≤ N := by omega
      push_cast [this]
      ring
    rw [hc]
    exact div_self (ne_of_gt hden)
  · rw [List.Sorted, hrw, List.pairwise_iff_getElem]
    intro i j hi hj hij
    simp only [List.getElem_map, List.getElem_range]
    have hij' : (i : ℚ) ≤ (j : ℚ) := by exact_mod_cast Nat.le_of_lt hij
    gcongr

/-- C9 witness at `N = 5`. -/
theorem calculateStepRatios_spec_witness :
    1 < 5 ∧
    ((Dragdealer.calculateStepRatios 5).length = 5 ∧
     (Dragdealer.calculateStepRatios 5).getD 0 0 = 0 ∧
     (Dragdealer.calculateStepRatios 5).getD (5 - 1) 0 = 1 ∧
     (Dragdealer.calculateStepRatios 5).Sorted (· ≤ ·) ∧
     ∀ i, i < 5 → (Dragdealer.calculateStepRatios 5).getD i 0 = (i : ℚ) / ((5 : ℚ) - 1)) := by
  constructor
  · norm_num
  · have h := calculateStepRatios_spec 5 (by norm_num)
    refine ⟨h.1, h.2.1, h.2.2.1, h.2.2.2.1, ?_⟩
    intro i hi
    rw [h.2.2.2.2 i hi]
    norm_num

/-- C8: a zero avail range never divides: with `availWidth = 0` the x-delta
reported by the drag-stop callback is 0 (symmetrically for y), and
`getRatioByOffset` maps any offset over a zero range to ratio 0. -/
theorem zeroRange_zeroDelta :
    (∀ (s : Dragdealer.State) (c : ℚ × ℚ), s.bounds.availWidth = 0 →
       s.disabled = false → s.dragging = true →
       ((Dragdealer.stopDrag s c).2.map Prod.fst) = some 0) ∧
    (∀ (s : Dragdealer.State) (c : ℚ × ℚ), s.bounds.availHeight = 0 →
       s.disabled = false → s.dragging = true →
       ((Dragdealer.stopDrag s c).2.map Prod.snd) = some 0) ∧
    (∀ offset padding : ℚ, Dragdealer.getRatioByOffset offset 0 padding = 0) := by
  refine ⟨?_, ?_, ?_⟩
  · intro s c hw hdis hdrag
    simp only [Dragdealer.stopDrag, hdis, hdrag]
    rw [if_neg (by simp)]
    simp [hw]
  · intro s c hh hdis hdrag
    simp only [Dragdealer.stopDrag, hdis, hdrag]
    rw [if_neg (by simp)]
    simp [hh]
  · intro offset padding
    simp [Dragdealer.getRatioByOffset]

/-- C8 witness: a concrete drag stop on a degenerate geometry. -/
theorem zeroRange_zeroDelta_witness :
    ((Dragdealer.stopDrag c8w (7, 3)).2.map Prod.fst) = some 0 ∧
    ((Dragdealer.stopDrag c8w (7, 3)).2.map Prod.snd) = some 0 ∧
    Dragdealer.getRatioByOffset 42 0 6 = 0 := by
  have h := zeroRange_zeroDelta
  exact ⟨h.1 c8w (7, 3) rfl rfl rfl, h.2.1 c8w (7, 3) rfl rfl rfl, h.2.2 42 6⟩

/-- C7: `Navi.activate(index)` stores `index` when `1 <= index <= N` and
the sentinel 0 otherwise, and the activate callback fires with the
previous index (read before the mutation) and the new index. -/
theorem navi_activate_spec (s : Navi.State) (index : ℤ) :
    ((Navi.activate s index).1.activateIndex =
       if 1 ≤ index ∧ index ≤ (s.btns : ℤ) then index else 0) ∧
    (s.activateCallback = true →
       (Navi.activate s index).2 =
         some { prevIndex := s.activateIndex,
                index := (Navi.activate s index).1.activateIndex }) := by
  constructor
  · show (if index ≤ 0 ∨ index > (s.btns : ℤ) then (0 : ℤ) else index) = _
    by_cases h : index ≤ 0 ∨ index > (s.btns : ℤ)
    · rw [if_pos h, if_neg (by omega)]
    · rw [if_neg h, if_pos (by omega)]
  · intro hcb
    simp [Navi.activate, hcb]

/-- C7 witness: a five-button navi at active index 2 activated to 3. -/
theorem navi_activate_spec_witness :
    (Navi.activate c7w 3).1.activateIndex = 3 ∧
    (Navi.activate c7w 3).2 = some { prevIndex := 2, index := 3 } := by
  have h := navi_activate_spec c7w 3
  constructor
  · rw [h.1]; decide
  · rw [h.2 rfl, h.1]; decide

/-- C10: the mobile prev/next page buttons do not wrap modulo N: prev emits
`currentIndex - 1` (0 once `currentIndex <= 1`), next emits
`currentIndex + 1` whenever `currentIndex <= N` — so N itself yields
`N + 1` — and 0 only once `currentIndex` already exceeds N. -/
theorem mobile_prevnext_no_wrap (s : Pagination.State) (sn : HSNavi.State)
    (h : s.slideNavi = some sn) :
    (Pagination.mobilePrevClick s).index =
      (if s.currentIndex ≤ 1 then 0 else s.currentIndex - 1) ∧
    Pagination.mobileNextClick s =
      some { eventType := clickPageBtn,
             index := if s.currentIndex > (sn.navi.btns : ℤ) then 0
                      else s.currentIndex + 1 } ∧
    (s.currentIndex = (sn.navi.btns : ℤ) →
       Pagination.mobileNextClick s =
         some { eventType := clickPageBtn, index := (sn.navi.btns : ℤ) + 1 }) := by
  refine ⟨rfl, by simp [Pagination.mobileNextClick, h], ?_⟩
  intro hc
  simp [Pagination.mobileNextClick, h, hc]

/-- C10 witness: ten buttons, `currentIndex = 10`: next emits 11 (not 1),
prev emits 9. -/
theorem mobile_prevnext_no_wrap_witness :
    (Pagination.mobilePrevClick p10).index = 9 ∧
    Pagination.mobileNextClick p10 = some { eventType := clickPageBtn, index := 11 } := by
  have h := mobile_prevnext_no_wrap p10 hs10 rfl
  constructor
  · rw [h.1]; decide
  · rw [h.2.2 (by decide)]; decide

/-- C5 (code bug): `Navi.destroy` and `HorizontalSlideNavi.destroy` are
idempotent and never throw, but a second
`DesktopPaginationNavi.destroy()` dereferences the `prevBtn` reference the
first call nulled: `_.prevBtn.off('click.ui.desktoppaginationnavi')` throws
a TypeError (modelled `none`). -/
theorem destroy_double_behaviour :
    (∀ n : Navi.State, Navi.destroy (Navi.destroy n) = Navi.destroy n) ∧
    (∀ s : HSNavi.State, HSNavi.destroy (HSNavi.destroy s) = HSNavi.destroy s) ∧
    DesktopNavi.destroy d5 = some d5After ∧
    DesktopNavi.destroy d5After = none := by
  exact ⟨fun n => rfl, fun s => rfl, by decide, by decide⟩

/-- C3 counterexample: on the ten-button desktop navigator showing window
`{left: 1, right: 4}` with button 1 active, a `next` shift to the new
active index 2 leaves the edge indices unchanged (the guard sees index 2
already inside the visible window), not `{left: 2, right: 5}` as claimed;
and a `prev` shift to new active index 10 yields `{left: 7, right: 10}`,
whose left edge is not the new active index. -/
theorem switchBtns_counterexample :
    DesktopNavi.switchBtns c3s (some Direction.next) 2 = c3s ∧
    ¬((DesktopNavi.switchBtns c3s (some Direction.next) 2).edgeLeft = 2 ∧
      (DesktopNavi.switchBtns c3s (some Direction.next) 2).edgeRight = 5) ∧
    (DesktopNavi.switchBtns c3s (some Direction.prev) 10).edgeLeft = 7 ∧
    (DesktopNavi.switchBtns c3s (some Direction.prev) 10).edgeRight = 10 ∧
    (DesktopNavi.switchBtns c3s (some Direction.prev) 10).edgeLeft ≠ 10 := by
  refine ⟨by decide, by decide, by decide, by decide, by decide⟩

/-- C3 (amended): `switchBtns` recomputes the window only when the new
index is outside the currently visible one; a `next` shift then sets
`left = newActiveIndex` and `right = (left + displayCount - 1) mod N`
(1-based, a 0 remainder wrapping to 1), while a `prev` shift sets
`right = newActiveIndex` and `left` to the reverse-looped first index. -/
theorem switchBtns_spec (s : DesktopNavi.State) (dir : Direction) (index : ℤ)
    (hN : displayBtnNum < s.naviListItems) :
    (isIndexInLoop (s.naviListItems : ℤ) displayBtnNum s.edgeLeft index = true →
       DesktopNavi.switchBtns s (some dir) index = s) ∧
    (isIndexInLoop (s.naviListItems : ℤ) displayBtnNum s.edgeLeft index = false →
       dir = Direction.next →
       (DesktopNavi.switchBtns s (some dir) index).edgeLeft = index ∧
       (DesktopNavi.switchBtns s (some dir) index).edgeRight =
         (if (index + (displayBtnNum : ℤ) - 1) % (s.naviListItems : ℤ) = 0 then 1
          else (index + (displayBtnNum : ℤ) - 1) % (s.naviListItems : ℤ))) ∧
    (isIndexInLoop (s.naviListItems : ℤ) displayBtnNum s.edgeLeft index = false →
       dir = Direction.prev →
       (DesktopNavi.switchBtns s (some dir) index).edgeRight = index ∧
       (DesktopNavi.switchBtns s (some dir) index).edgeLeft =
         getReverseLoopedFirstIndex (s.naviListItems : ℤ) displayBtnNum index) := by
  have hle : ¬(s.naviListItems ≤ displayBtnNum) := not_le.mpr hN
  refine ⟨?_, ?_, ?_⟩
  · intro hin
    simp [DesktopNavi.switchBtns, hle, hin]
  · intro hout hdir
    subst hdir
    simp [DesktopNavi.switchBtns, hle, hout, getLoopedLastIndex]
  · intro hout hdir
    subst hdir
    simp [DesktopNavi.switchBtns, hle, hout]

/-- C3 (amended) witness: a `next` shift to off-window index 5 on the
`{left: 1, right: 4}` window of ten buttons yields `{left: 5, right: 8}`,
and the guard case at in-window index 2 is a no-op. -/
theorem switchBtns_spec_witness :
    DesktopNavi.switchBtns c3w (some Direction.next) 2 = c3w ∧
    (DesktopNavi.switchBtns c3w (some Direction.next) 5).edgeLeft = 5 ∧
    (DesktopNavi.switchBtns c3w (some Direction.next) 5).edgeRight = 8 := by
  have hg := (switchBtns_spec c3w Direction.next 2 (by decide)).1 (by decide)
  have h := (switchBtns_spec c3w Direction.next 5 (by decide)).2.1 (by decide) rfl
  exact ⟨hg, h.1, h.2.trans (by decide)⟩

theorem updateOffsetFromValue_value (s : Dragdealer.State) :
    (Dragdealer.updateOffsetFromValue s).value = s.value := by
  simp only [Dragdealer.updateOffsetFromValue, apply_ite Dragdealer.State.value, ite_self]

theorem callAnimationCallback_target (s : Dragdealer.State) :
    (Dragdealer.callAnimationCallback s).value.target = s.value.target := by
  simp only [Dragdealer.callAnimationCallback,
    apply_ite (fun st : Dragdealer.State => st.value.target), ite_self]

theorem callAnimationCallback_offsetCurrent (s : Dragdealer.State) :
    (Dragdealer.callAnimationCallback s).offsetCurrent = s.offsetCurrent := by
  simp only [Dragdealer.callAnimationCallback,
    apply_ite Dragdealer.State.offsetCurrent, ite_self]

theorem updateOffsetFromValue_offsetCurrent (s : Dragdealer.State) :
    (Dragdealer.updateOffsetFromValue s).offsetCurrent =
      (if ¬s.options.snap then Dragdealer.getOffsetsByRatios s s.value.current
       else Dragdealer.getOffsetsByRatios s
              (Dragdealer.getClosestSteps s.stepRatios s.value.current)) := by
  simp only [Dragdealer.updateOffsetFromValue,
    apply_ite Dragdealer.State.offsetCurrent, ite_self]

/-- C6 counterexample: a Dragdealer constructed over a wrapper with no
`.handle` child does not throw at construction and binds no listeners, but
it is not inert: `getValue`, `setValue`, `reflow`, `enable`, `disable` and
`startDrag` all throw a TypeError (modelled `none`) instead of being
no-ops. -/
theorem dragdealer_missing_handle_counterexample :
    (Dragdealer.construct ⟨true, false⟩ {} {}).state = none ∧
    (Dragdealer.construct ⟨true, false⟩ {} {}).listenersBound = false ∧
    (Dragdealer.construct ⟨true, false⟩ {} {}).getValueI = none ∧
    (Dragdealer.construct ⟨true, false⟩ {} {}).setValueI (1/2) 0 true = none ∧
    (Dragdealer.construct ⟨true, false⟩ {} {}).reflowI {} = none ∧
    (Dragdealer.construct ⟨true, false⟩ {} {}).enableI = none ∧
    (Dragdealer.construct ⟨true, false⟩ {} {}).disableI = none ∧
    (Dragdealer.construct ⟨true, false⟩ {} {}).startDragI (0, 0) (0, 0) (0, 0) = none :=
  ⟨rfl, rfl, rfl, rfl, rfl, rfl, rfl, rfl⟩

/-- C6 (amended): when the wrapper or the handle cannot be located,
construction itself does not throw and attaches no listeners, and the
instance stays uninitialized forever — but its public methods are not
no-ops: every one of them except `stopDrag` (whose `!this.dragging` guard
happens to return early) throws a TypeError when invoked. -/
theorem dragdealer_missing_element_not_inert (env : Dragdealer.CtorEnv)
    (opts : Dragdealer.Options) (geo geo2 : Dragdealer.Geometry)
    (h : env.wrapperFound = false ∨ env.handleFound = false) :
    (Dragdealer.construct env opts geo).state = none ∧
    (Dragdealer.construct env opts geo).listenersBound = false ∧
    (Dragdealer.construct env opts geo).getValueI = none ∧
    (∀ x y snap, (Dragdealer.construct env opts geo).setValueI x y snap = none) ∧
    (Dragdealer.construct env opts geo).reflowI geo2 = none ∧
    (Dragdealer.construct env opts geo).enableI = none ∧
    (Dragdealer.construct env opts geo).disableI = none ∧
    (∀ c w hp, (Dragdealer.construct env opts geo).startDragI c w hp = none) ∧
    (∀ c, (Dragdealer.construct env opts geo).stopDragI c =
            (Dragdealer.construct env opts geo, none)) := by
  have hs : Dragdealer.construct env opts geo =
      { state := none, listenersBound := false } := by
    rcases h with h | h
    · simp [Dragdealer.construct, h]
    · cases hw : env.wrapperFound <;> simp [Dragdealer.construct, h, hw]
  rw [hs]
  refine ⟨rfl, rfl, rfl, fun x y snap => rfl, rfl, rfl, rfl, fun c w hp => rfl,
    fun c => rfl⟩

/-- C6 (amended) witness: the missing-wrapper case, concretely. -/
theorem dragdealer_missing_element_not_inert_witness :
    (Dragdealer.construct ⟨false, true⟩ {} {}).state = none ∧
    (Dragdealer.construct ⟨false, true⟩ {} {}).listenersBound = false ∧
    (Dragdealer.construct ⟨false, true⟩ {} {}).getValueI = none ∧
    (Dragdealer.construct ⟨false, true⟩ {} {}).setValueI 1 2 false = none ∧
    (Dragdealer.construct ⟨false, true⟩ {} {}).reflowI {} = none ∧
    (Dragdealer.construct ⟨false, true⟩ {} {}).enableI = none ∧
    (Dragdealer.construct ⟨false, true⟩ {} {}).disableI = none ∧
    (Dragdealer.construct ⟨false, true⟩ {} {}).startDragI (1, 2) (3, 4) (5, 6) = none ∧
    (Dragdealer.construct ⟨false, true⟩ {} {}).stopDragI (7, 8) =
      (Dragdealer.construct ⟨false, true⟩ {} {}, none) := by
  have h := dragdealer_missing_element_not_inert ⟨false, true⟩ {} {} {} (Or.inl rfl)
  exact ⟨h.1, h.2.1, h.2.2.1, h.2.2.2.1 1 2 false, h.2.2.2.2.1, h.2.2.2.2.2.1,
    h.2.2.2.2.2.2.1, h.2.2.2.2.2.2.2.1 (1, 2) (3, 4) (5, 6), h.2.2.2.2.2.2.2.2 (7, 8)⟩

/-- C2 (amended): releasing a drag with `slide` enabled extrapolates the
target by four times the last frame's ratio change on each axis and then
clamps it to `[0, 1]` plainly — `stopDrag` calls `setTargetValue` without
the loose flag, so loose bounds are never applied on release (stated for
step-free engines; with `steps > 1` the clamp is followed by step
snapping). -/
theorem stopDrag_slide_extrapolates_and_clamps (s : Dragdealer.State) (c : ℚ × ℚ)
    (hdis : s.disabled = false) (hdrag : s.dragging = true)
    (hslide : s.options.slide = true) (hsteps : s.options.steps ≤ 1) :
    ((Dragdealer.stopDrag s c).1).value.target =
      (min (max (s.value.current.1 + s.change.1 * 4) 0) 1,
       min (max (s.value.current.2 + s.change.2 * 4) 0) 1) := by
  simp only [Dragdealer.stopDrag, hdis, hdrag]
  rw [if_neg (by simp)]
  simp only [Dragdealer.setTargetValue, Dragdealer.getProperValue, hslide,
    Nat.not_lt.mpr hsteps, if_false, ite_self]
  rfl

/-- C2 (amended) witness: current `(1/2, 0)`, change `(1/4, 0)`: the
extrapolated `3/2` clamps to 1 and `0` stays 0. -/
theorem stopDrag_slide_extrapolates_and_clamps_witness :
    ((Dragdealer.stopDrag c2w (0, 0)).1).value.target = (1, 0) := by
  have h := stopDrag_slide_extrapolates_and_clamps c2w (0, 0) rfl rfl rfl (by norm_num [c2w])
  rw [h]
  norm_num [c2w, Prod.ext_iff]

/-- C2 counterexample: with both `loose` and `slide` set, current `(9/10,
0)` and change `(1/10, 0)`, the extrapolated ratio `13/10` is clamped hard
to 1 by `stopDrag`, not to the loose bound `43/40 = 1 + (13/10 - 1)/4` the
claim prescribes for a loose engine. -/
theorem stopDrag_ignores_loose_counterexample :
    c2s.options.loose = true ∧ c2s.options.slide = true ∧
    Dragdealer.getLooseValue { c2s with dragging := false }
      (c2s.value.current.1 + c2s.change.1 * 4,
       c2s.value.current.2 + c2s.change.2 * 4) = (43/40, 0) ∧
    ((Dragdealer.stopDrag c2s (0, 0)).1).value.target = (1, 0) ∧
    ((1 : ℚ), (0 : ℚ)) ≠ ((43/40 : ℚ), (0 : ℚ)) := by
  refine ⟨rfl, rfl, ?_, ?_, by norm_num [Prod.ext_iff]⟩
  · norm_num [c2s, Dragdealer.getLooseValue, Dragdealer.getProperValue, Prod.ext_iff]
  · norm_num [c2s, Dragdealer.stopDrag, Dragdealer.setTargetValue,
      Dragdealer.getProperValue, Prod.ext_iff]

theorem getProperValue_rest (s : Dragdealer.State) (x y : ℚ)
    (hd : s.dragging = false) (ht : s.tapping = false)
    (hsr : s.stepRatios = Dragdealer.calculateStepRatios s.options.steps) :
    Dragdealer.getProperValue s (x, y) = specClampStep s.options.steps x y := by
  unfold Dragdealer.getProperValue specClampStep
  rw [if_pos (Or.inl ⟨by simp [hd], by simp [ht]⟩), hsr]

theorem calculateStepRatios_ne_nil (steps : ℕ) (h : 1 ≤ steps) :
    Dragdealer.calculateStepRatios steps ≠ [] := by
  unfold Dragdealer.calculateStepRatios
  rw [if_pos h]
  simp [List.ne_nil_of_length_pos, h, Nat.lt_of_lt_of_le Nat.zero_lt_one h]

theorem setTargetValue_options (s : Dragdealer.State) (v : ℚ × ℚ) (loose : Bool) :
    (Dragdealer.setTargetValue s v loose).options = s.options := rfl

theorem setTargetValue_bounds (s : Dragdealer.State) (v : ℚ × ℚ) (loose : Bool) :
    (Dragdealer.setTargetValue s v loose).bounds = s.bounds := rfl

theorem setTargetValue_stepRatios (s : Dragdealer.State) (v : ℚ × ℚ) (loose : Bool) :
    (Dragdealer.setTargetValue s v loose).stepRatios = s.stepRatios := rfl

theorem getClosestSteps_idem (table : List ℚ) (g : ℚ × ℚ) (h : table ≠ []) :
    Dragdealer.getClosestSteps table (Dragdealer.getClosestSteps table g) =
      Dragdealer.getClosestSteps table g := by
  unfold Dragdealer.getClosestSteps
  exact Prod.ext (getClosestStep_idem table g.1 h) (getClosestStep_idem table g.2 h)

/-- C1: `setValue(x, y, snap=true)` (outside a drag/tap, on an engine whose
step table matches its `steps` option, with the `snap` option only in play
when `steps > 1`): `getValue()` immediately returns the clamped-to-`[0,1]`
and, when `steps > 1`, step-snapped version of `(x, y)`, and the rendered
pixel offset is `round(ratio * availWidth) + left` on x and
`round(ratio * availHeight) + top` on y for that same ratio pair. -/
theorem setValue_snap_spec (s : Dragdealer.State) (x y : ℚ)
    (hd : s.dragging = false) (ht : s.tapping = false)
    (hsr : s.stepRatios = Dragdealer.calculateStepRatios s.options.steps)
    (hsn : s.options.snap = true → 1 < s.options.steps) :
    Dragdealer.getValue (Dragdealer.setValue s x y true) =
      specClampStep s.options.steps x y ∧
    (Dragdealer.setValue s x y true).offsetCurrent =
      ((jsRound ((specClampStep s.options.steps x y).1 * s.bounds.availWidth) : ℚ)
         + s.bounds.left,
       (jsRound ((specClampStep s.options.steps x y).2 * s.bounds.availHeight) : ℚ)
         + s.bounds.top) := by
  have hproper := getProperValue_rest s x y hd ht hsr
  have hsv : Dragdealer.setValue s x y true =
      Dragdealer.callAnimationCallback (Dragdealer.updateOffsetFromValue
        { Dragdealer.setTargetValue s (x, y) false with
          value := { (Dragdealer.setTargetValue s (x, y) false).value with
                     current := (Dragdealer.setTargetValue s (x, y) false).value.target } }) :=
    rfl
  have htgt : (Dragdealer.setTargetValue s (x, y) false).value.target =
      specClampStep s.options.steps x y := hproper
  constructor
  · show (Dragdealer.setValue s x y true).value.target = _
    rw [hsv, callAnimationCallback_target, updateOffsetFromValue_value]
    exact htgt
  · rw [hsv, callAnimationCallback_offsetCurrent, updateOffsetFromValue_offsetCurrent]
    simp only [Dragdealer.getOffsetsByRatios, Dragdealer.getOffsetByRatio,
      setTargetValue_options, setTargetValue_bounds, setTargetValue_stepRatios, htgt, hsr]
    by_cases hsnap : s.options.snap = true
    · have hsteps := hsn hsnap
      have htne : Dragdealer.calculateStepRatios s.options.steps ≠ [] :=
        calculateStepRatios_ne_nil _ (Nat.one_le_of_lt hsteps)
      have hPstep : specClampStep s.options.steps x y =
          Dragdealer.getClosestSteps (Dragdealer.calculateStepRatios s.options.steps)
            (min (max x 0) 1, min (max y 0) 1) := by
        unfold specClampStep
        rw [if_pos hsteps]
      have hfix : Dragdealer.getClosestSteps
          (Dragdealer.calculateStepRatios s.options.steps)
          (specClampStep s.options.steps x y) = specClampStep s.options.steps x y := by
        rw [hPstep]
        exact getClosestSteps_idem _ _ htne
      rw [if_neg (by simp [hsnap]), hfix]
    · rw [if_pos (by simp [hsnap])]

theorem jsRound_eq_floor (q : ℚ) : jsRound q = ⌊q + 1/2⌋ := rfl

/-- C1 witness: three steps with the `snap` option on, `availWidth = 150`,
`left = 10`, `top = 5`: `setValue(3/2, -1, true)` yields value `(1, 0)` and
rendered offset `(160, 5)`. -/
theorem setValue_snap_spec_witness :
    Dragdealer.getValue (Dragdealer.setValue c1w (3/2) (-1) true) = (1, 0) ∧
    (Dragdealer.setValue c1w (3/2) (-1) true).offsetCurrent = (160, 5) := by
  have h := setValue_snap_spec c1w (3/2) (-1) rfl rfl rfl (fun _ => by norm_num [c1w])
  have htab : Dragdealer.calculateStepRatios c1w.options.steps = [0, 1/2, 1] := by
    norm_num [c1w, Dragdealer.calculateStepRatios, List.range_succ]
  have h1 : Dragdealer.getClosestStep [0, 1/2, 1] 1 = 1 := by
    norm_num [Dragdealer.getClosestStep, Dragdealer.closestLoop, abs_of_nonneg]
  have h0 : Dragdealer.getClosestStep [0, 1/2, 1] 0 = 0 := by
    norm_num [Dragdealer.getClosestStep, Dragdealer.closestLoop, abs_of_nonneg]
  have hc1 : min (max (3/2 : ℚ) 0) 1 = 1 := by norm_num
  have hc2 : min (max (-1 : ℚ) 0) 1 = 0 := by norm_num
  have hspec : specClampStep c1w.options.steps (3/2) (-1) = (1, 0) := by
    unfold specClampStep
    rw [if_pos (by norm_num [c1w]), htab, hc1, hc2]
    unfold Dragdealer.getClosestSteps
    rw [Prod.mk.injEq]
    exact ⟨h1, h0⟩
  refine ⟨h.1.trans hspec, h.2.trans ?_⟩
  rw [hspec]
  have hx : jsRound ((1 : ℚ) * c1w.bounds.availWidth) = 150 := by
    rw [jsRound_eq_floor, Int.floor_eq_iff]
    norm_num [c1w]
  have hy : jsRound ((0 : ℚ) * c1w.bounds.availHeight) = 0 := by
    rw [jsRound_eq_floor, Int.floor_eq_iff]
    norm_num [c1w]
  rw [Prod.mk.injEq]
  constructor
  · rw [hx]
    norm_num [c1w]
  · rw [hy]
    norm_num [c1w]

/-- C4: a `resize` that crosses from mobile (slide navigator live, no
desktop navigator) to a viewport at least `pc` wide destroys the slide
navigator, constructs the desktop navigator, and preserves the logical
`currentIndex`: the index active before the swap is the active index of
the new navigator (for an in-range index over a present desktop wrap). -/
theorem resize_mobile_to_desktop (env : PageEnv) (s : Pagination.State) (width : ℤ)
    (hs : s.slideNavi.isSome = true) (hd : s.desktopNavi = none)
    (hw : breakpointPc ≤ width) (hwrap : env.desktopWrapPresent = true)
    (h1 : 1 ≤ s.currentIndex) (h2 : s.currentIndex ≤ (env.numButtons : ℤ)) :
    ∃ s' : Pagination.State,
      Pagination.resize env s width = some s' ∧
      s'.slideNavi = none ∧
      (∃ d, s'.desktopNavi = some d ∧
        DesktopNavi.getActivatedIndex d = s.currentIndex) ∧
      s'.currentIndex = s.currentIndex := by
  have harm : Pagination.resizeDesktopArm env s =
      { currentIndex := s.currentIndex, slideNavi := none,
        desktopNavi := some (DesktopNavi.activate
          (DesktopNavi.setInstance env (DesktopNavi.construct s.currentIndex))
          s.currentIndex) } := by
    unfold Pagination.resizeDesktopArm Pagination.setDesktopNavi
    simp [hd]
  have hnav : (DesktopNavi.setInstance env (DesktopNavi.construct s.currentIndex)).navi =
      some { btns := env.numButtons, mouseoverCallback := false, mouseoutCallback := false,
             mousedownCallback := false, mouseupCallback := false, clickCallback := true,
             activateCallback := true, currentIndex := 0, activateIndex := 0,
             listenersBound := true } := by
    unfold DesktopNavi.setInstance
    rw [if_neg (by simp [hwrap])]
    rfl
  have hact : DesktopNavi.getActivatedIndex
      (DesktopNavi.activate (DesktopNavi.setInstance env (DesktopNavi.construct s.currentIndex))
        s.currentIndex) = s.currentIndex := by
    unfold DesktopNavi.activate
    rw [hnav]
    dsimp only [DesktopNavi.getActivatedIndex, Navi.activate]
    rw [if_neg (by omega)]
  refine ⟨Pagination.resizeDesktopArm env s, ?_, ?_, ?_, ?_⟩
  · unfold Pagination.resize
    by_cases hm : width ≥ breakpointMax
    · rw [if_pos hm]
    · rw [if_neg hm, if_pos hw]
  · rw [harm]
  · rw [harm]
    exact ⟨_, rfl, hact⟩
  · rw [harm]

/-- C4 witness: crossing to a 1000px viewport with ten buttons and the
logical index 3 active. -/
theorem resize_mobile_to_desktop_witness :
    ∃ s' : Pagination.State,
      Pagination.resize env10 p4 1000 = some s' ∧
      s'.slideNavi = none ∧
      (∃ d, s'.desktopNavi = some d ∧ DesktopNavi.getActivatedIndex d = 3) ∧
      s'.currentIndex = 3 :=
  resize_mobile_to_desktop env10 p4 1000 rfl rfl (by decide) rfl (by decide) (by decide)
